import Mathlib

/-!
Verification of the ESP32 WAV audio recorder
(`src/main/boards/common/AudioRecorder.h`).

The on-disk file is modelled as a `List Nat` of bytes.  C `int` and
`short` struct fields are modelled as `Int`, serialized little-endian in
two's complement (32 resp. 16 bits), exactly as the packed `WavHeader`
struct is laid out in memory and written by `fwrite`.  The background
capture loop is modelled as a fold over the list of `i2s_read` outcomes
that occur before the loop observes the cleared `m_is_recording` flag.
-/

namespace AudioRecorder

/-- Two's-complement wrap of an integer to the 32-bit signed range,
the effect of storing a value in a C `int` on the target. -/
def wrap32 (n : Int) : Int :=
  (n + 2147483648) % 4294967296 - 2147483648

/-- Two's-complement wrap to the 16-bit signed range (C `short`). -/
def wrap16 (n : Int) : Int :=
  (n + 32768) % 65536 - 32768

/-- Little-endian bytes of a 32-bit field holding `n` (as `fwrite` emits
the four bytes of a C `int`). -/
def le32 (n : Int) : List Nat :=
  [(n % 4294967296).toNat % 256,
   (n % 4294967296).toNat / 256 % 256,
   (n % 4294967296).toNat / 65536 % 256,
   (n % 4294967296).toNat / 16777216 % 256]

/-- Little-endian bytes of a 16-bit field (C `short`). -/
def le16 (n : Int) : List Nat :=
  [(n % 65536).toNat % 256,
   (n % 65536).toNat / 256 % 256]

/-- Decode four little-endian bytes as a 32-bit signed integer
(what `fread` into an `int` field yields). -/
def de32 (b0 b1 b2 b3 : Nat) : Int :=
  if b0 + 256 * b1 + 65536 * b2 + 16777216 * b3 < 2147483648 then
    (b0 + 256 * b1 + 65536 * b2 + 16777216 * b3 : Nat)
  else
    (b0 + 256 * b1 + 65536 * b2 + 16777216 * b3 : Nat) - 4294967296

/-- Decode two little-endian bytes as a 16-bit signed integer. -/
def de16 (b0 b1 : Nat) : Int :=
  if b0 + 256 * b1 < 32768 then (b0 + 256 * b1 : Nat)
  else (b0 + 256 * b1 : Nat) - 65536

/-- The `WavHeader` struct of `AudioRecorder.h` (lines 10-29); field
names and order follow the C declaration.  The struct is laid out with
no padding, 44 bytes in total. -/
structure WavHeader where
  riff_header : List Nat
  wav_size : Int
  wave_header : List Nat
  fmt_header : List Nat
  fmt_chunk_size : Int
  audio_format : Int
  num_channels : Int
  sample_rate : Int
  byte_rate : Int
  sample_alignment : Int
  bit_depth : Int
  data_header : List Nat
  data_bytes : Int
  deriving DecidableEq

/-- `sizeof(WavHeader)`: 44 bytes. -/
def wavHeaderSize : Nat := 44

/-- The bytes `fwrite(&header, 1, sizeof(WavHeader), file)` emits:
the fields in declaration order, ints and shorts little-endian. -/
def serializeWavHeader (h : WavHeader) : List Nat :=
  h.riff_header ++ le32 h.wav_size ++ h.wave_header ++
  h.fmt_header ++ le32 h.fmt_chunk_size ++ le16 h.audio_format ++
  le16 h.num_channels ++ le32 h.sample_rate ++ le32 h.byte_rate ++
  le16 h.sample_alignment ++ le16 h.bit_depth ++
  h.data_header ++ le32 h.data_bytes

/-- Byte `i` of a file (0 past the end; the runs we reason about stay
in range). -/
def byteAt (f : List Nat) (i : Nat) : Nat := f.getD i 0

/-- The struct `fread(&header, 1, sizeof(WavHeader), file)` fills from
the first 44 bytes of the file. -/
def parseWavHeader (f : List Nat) : WavHeader :=
  { riff_header := [byteAt f 0, byteAt f 1, byteAt f 2, byteAt f 3]
  , wav_size := de32 (byteAt f 4) (byteAt f 5) (byteAt f 6) (byteAt f 7)
  , wave_header := [byteAt f 8, byteAt f 9, byteAt f 10, byteAt f 11]
  , fmt_header := [byteAt f 12, byteAt f 13, byteAt f 14, byteAt f 15]
  , fmt_chunk_size := de32 (byteAt f 16) (byteAt f 17) (byteAt f 18) (byteAt f 19)
  , audio_format := de16 (byteAt f 20) (byteAt f 21)
  , num_channels := de16 (byteAt f 22) (byteAt f 23)
  , sample_rate := de32 (byteAt f 24) (byteAt f 25) (byteAt f 26) (byteAt f 27)
  , byte_rate := de32 (byteAt f 28) (byteAt f 29) (byteAt f 30) (byteAt f 31)
  , sample_alignment := de16 (byteAt f 32) (byteAt f 33)
  , bit_depth := de16 (byteAt f 34) (byteAt f 35)
  , data_header := [byteAt f 36, byteAt f 37, byteAt f 38, byteAt f 39]
  , data_bytes := de32 (byteAt f 40) (byteAt f 41) (byteAt f 42) (byteAt f 43) }

/-- `ESP32AudioRecorder::write_wav_header` (lines 222-241): the record
it builds, with the assignments of the C body.  `num_channels` is the
literal 1, `byte_rate` and `sample_alignment` are the C expressions
`sample_rate * num_channels * (bit_depth / 8)` and
`num_channels * (bit_depth / 8)`; `wav_size` and `data_bytes` are the
0 placeholders. -/
def write_wav_header (m_sample_rate m_bits_per_sample : Int) : WavHeader :=
  { riff_header := [82, 73, 70, 70]
  , wav_size := 0
  , wave_header := [87, 65, 86, 69]
  , fmt_header := [102, 109, 116, 32]
  , fmt_chunk_size := 16
  , audio_format := 1
  , num_channels := 1
  , sample_rate := m_sample_rate
  , byte_rate := m_sample_rate * 1 * (m_bits_per_sample / 8)
  , sample_alignment := 1 * (m_bits_per_sample / 8)
  , bit_depth := m_bits_per_sample
  , data_header := [100, 97, 116, 97]
  , data_bytes := 0 }

/-- The 44 bytes `write_wav_header` puts at the start of the file. -/
def write_wav_header_bytes (m_sample_rate m_bits_per_sample : Int) : List Nat :=
  serializeWavHeader (write_wav_header m_sample_rate m_bits_per_sample)

/-- `ESP32AudioRecorder::update_wav_header` (lines 243-254): the record
rewritten at offset 0 — the header read back from the file with
`data_bytes` set to `total_data_bytes` and `wav_size` to
`total_data_bytes + sizeof(WavHeader) - 8`. -/
def update_wav_header_record (file : List Nat) (total_data_bytes : Int) : WavHeader :=
  let header := parseWavHeader (file.take wavHeaderSize)
  { header with
      data_bytes := total_data_bytes
      wav_size := total_data_bytes + (wavHeaderSize : Int) - 8 }

/-- The file contents after `update_wav_header`: seek to 0, read the
44-byte header, patch the two size fields, seek to 0, rewrite it. -/
def update_wav_header (file : List Nat) (total_data_bytes : Int) : List Nat :=
  serializeWavHeader (update_wav_header_record file total_data_bytes) ++
  file.drop wavHeaderSize

/-- One iteration's outcome in the capture loop of
`recording_task_function` (lines 287-297):
`read_ok block write_ok` is `i2s_read` returning `ESP_OK` with
`bytes_read = block.length`, `write_ok` telling whether the subsequent
unchecked `fwrite` actually put the bytes in the file (a failed `fwrite`
is modelled as writing nothing); `read_fail` is any non-`ESP_OK`
result (error or timeout), which the loop only logs. -/
inductive LoopEvent where
  | read_ok (block : List Nat) (write_ok : Bool)
  | read_fail
  deriving DecidableEq

/-- The capture loop (lines 287-297) over the `i2s_read` outcomes that
occur before the loop observes the cleared flag: on `ESP_OK` with
`bytes_read > 0` it appends the block with `fwrite` (result unchecked)
and adds `bytes_read` to the `int` counter `m_data_bytes_written`
(which wraps in 32 bits); otherwise it only logs and retries. -/
def capture_loop : List LoopEvent → List Nat → Int → List Nat × Int
  | [], file, counter => (file, counter)
  | LoopEvent.read_ok block w :: rest, file, counter =>
      if 0 < block.length then
        capture_loop rest (if w then file ++ block else file)
          (wrap32 (counter + block.length))
      else
        capture_loop rest file counter
  | LoopEvent.read_fail :: rest, file, counter =>
      capture_loop rest file counter

/-- One full recording session's file contents
(`recording_task_function`, lines 257-314, after a successful `fopen`):
write the placeholder header, run the capture loop with
`m_data_bytes_written = 0`, then finalize the header with the counter. -/
def run_session (sr bits : Int) (events : List LoopEvent) : List Nat :=
  let file0 := write_wav_header_bytes sr bits
  let fc := capture_loop events file0 0
  update_wav_header fc.1 fc.2

/-- The bytes that land in the file's payload: blocks of successful
reads whose `fwrite` succeeded, in read order. -/
def writtenBytes : List LoopEvent → List Nat
  | [] => []
  | LoopEvent.read_ok block w :: rest =>
      (if 0 < block.length then if w then block else [] else []) ++ writtenBytes rest
  | LoopEvent.read_fail :: rest => writtenBytes rest

/-- The total of `bytes_read` values added to `m_data_bytes_written`:
the lengths of all successfully read nonempty blocks (counted whether
or not their `fwrite` succeeded, as the code never checks it). -/
def countedLen : List LoopEvent → Nat
  | [] => 0
  | LoopEvent.read_ok block _ :: rest =>
      (if 0 < block.length then block.length else 0) + countedLen rest
  | LoopEvent.read_fail :: rest => countedLen rest

/-- The `data_bytes` field of the header on disk. -/
def read_data_size (f : List Nat) : Int :=
  de32 (byteAt f 40) (byteAt f 41) (byteAt f 42) (byteAt f 43)

/-- The `wav_size` (file size minus 8) field of the header on disk. -/
def read_wav_size (f : List Nat) : Int :=
  de32 (byteAt f 4) (byteAt f 5) (byteAt f 6) (byteAt f 7)

/-- The `byte_rate` field of the header on disk. -/
def read_byte_rate (f : List Nat) : Int :=
  de32 (byteAt f 28) (byteAt f 29) (byteAt f 30) (byteAt f 31)

/-- The members of `ESP32AudioRecorder` that the public operations
touch synchronously (lines 97-108); `m_is_recording` is the volatile
control flag. -/
structure RecorderState where
  m_filepath : String
  m_is_recording : Bool
  m_data_bytes_written : Int
  deriving DecidableEq

/-- `ESP32AudioRecorder::StartRecording` (lines 166-194), the part that
runs synchronously in the caller: reject if already recording;
otherwise store the path, set the flag, zero the counter, and create
the task (`task_create_ok` is the `xTaskCreate` outcome; on failure the
flag is cleared and `false` returned).  Note the destination path is
not opened here — `fopen` happens later in the background task — so
the return value does not depend on whether the path can be opened. -/
def StartRecording (s : RecorderState) (filepath : String) (task_create_ok : Bool) :
    Bool × RecorderState :=
  if s.m_is_recording then (false, s)
  else
    let s1 : RecorderState :=
      { m_filepath := filepath, m_is_recording := true, m_data_bytes_written := 0 }
    if task_create_ok then (true, s1)
    else (false, { s1 with m_is_recording := false })

/-- `ESP32AudioRecorder::StopRecording` (lines 196-214): reject if not
recording; otherwise clear the flag, sleep a fixed 200 ms, return
`true`.  It performs no file I/O itself. -/
def StopRecording (s : RecorderState) : Bool × RecorderState :=
  if s.m_is_recording = false then (false, s)
  else (true, { s with m_is_recording := false })

/-- `ESP32AudioRecorder::IsRecording` (lines 216-218). -/
def IsRecording (s : RecorderState) : Bool := s.m_is_recording

/-- The open phase of `recording_task_function` (lines 261-267):
`fopen_ok` is whether the destination could be opened for writing; on
failure the task clears `m_is_recording` and exits (second component:
whether the task goes on to record). -/
def recording_task_open_phase (s : RecorderState) (fopen_ok : Bool) :
    RecorderState × Bool :=
  if fopen_ok then (s, true)
  else ({ s with m_is_recording := false }, false)

/-- An operation the background task performs on the sink `FILE*`. -/
inductive FileOp where
  | fopen_wb (path : String)
  | fwrite (bytes : List Nat)
  | fseek_set0
  | fread_header
  | fclose
  deriving DecidableEq

/-- The `fwrite` calls the capture loop issues (one per successful
nonempty read; issued whether or not the write will succeed). -/
def loop_ops : List LoopEvent → List FileOp
  | [] => []
  | LoopEvent.read_ok block _ :: rest =>
      (if 0 < block.length then [FileOp.fwrite block] else []) ++ loop_ops rest
  | LoopEvent.read_fail :: rest => loop_ops rest

/-- The sequence of sink operations `recording_task_function` performs:
open; if the open succeeded, write the placeholder header, run the
loop, then (`update_wav_header`) seek to 0, read the header back, seek
to 0, rewrite it, and close. -/
def session_ops (path : String) (fopen_ok : Bool) (sr bits : Int)
    (events : List LoopEvent) : List FileOp :=
  if fopen_ok then
    let file0 := write_wav_header_bytes sr bits
    let fc := capture_loop events file0 0
    [FileOp.fopen_wb path, FileOp.fwrite file0] ++ loop_ops events ++
    [FileOp.fseek_set0, FileOp.fread_header, FileOp.fseek_set0,
     FileOp.fwrite (serializeWavHeader (update_wav_header_record fc.1 fc.2)),
     FileOp.fclose]
  else [FileOp.fopen_wb path]

/-- How many `fwrite`s a sink-operation sequence performs at file
offset 0, tracking the position a freshly opened (`"wb"`) file starts
at. -/
def count_writes_at_0 : List FileOp → Nat → Nat
  | [], _ => 0
  | FileOp.fopen_wb _ :: rest, pos => count_writes_at_0 rest pos
  | FileOp.fwrite bs :: rest, pos =>
      (if pos = 0 then 1 else 0) + count_writes_at_0 rest (pos + bs.length)
  | FileOp.fseek_set0 :: rest, _ => count_writes_at_0 rest 0
  | FileOp.fread_header :: rest, pos => count_writes_at_0 rest (pos + wavHeaderSize)
  | FileOp.fclose :: rest, pos => count_writes_at_0 rest pos

/-- The fixed wait in `StopRecording` (line 209):
`vTaskDelay(pdMS_TO_TICKS(200))`. -/
def stopRecording_delay_ms : Nat := 200

/-- The `i2s_read` timeout in the capture loop (line 289):
`pdMS_TO_TICKS(100)`. -/
def i2s_read_timeout_ms : Nat := 100

/-- Time, measured from the instant `StopRecording` clears the flag,
until the capture loop has finalized the header and closed the file,
when the loop is just entering `i2s_read` at that instant: the read
blocks for `pending_read_ms` (up to its timeout), the block is written
in `fwrite_ms`, only then is the flag re-checked and the finalize
(seek + read + rewrite of the header + `fclose`) done in
`finalize_io_ms`. -/
def finalize_complete_ms (pending_read_ms fwrite_ms finalize_io_ms : Nat) : Nat :=
  pending_read_ms + fwrite_ms + finalize_io_ms

/-- Closed form of the header record that `update_wav_header` rewrites
at offset 0 when the file was started by `write_wav_header` and the
counter value is `c` (proved below in `update_record_of_write`). -/
def final_header (sr bits c : Int) : WavHeader :=
  { riff_header := [82, 73, 70, 70]
  , wav_size := c + 36
  , wave_header := [87, 65, 86, 69]
  , fmt_header := [102, 109, 116, 32]
  , fmt_chunk_size := 16
  , audio_format := 1
  , num_channels := 1
  , sample_rate := wrap32 sr
  , byte_rate := wrap32 (sr * 1 * (bits / 8))
  , sample_alignment := wrap16 (1 * (bits / 8))
  , bit_depth := wrap16 bits
  , data_header := [100, 97, 116, 97]
  , data_bytes := c }

/-! ### Arithmetic facts about the 32/16-bit encodings -/

lemma wrap32_eq_self {n : Int} (h0 : -2147483648 ≤ n) (h1 : n < 2147483648) :
    wrap32 n = n := by
  unfold wrap32; omega

lemma wrap32_zero : wrap32 0 = 0 := by
  unfold wrap32; norm_num

lemma wrap32_wrap32_add (a b : Int) : wrap32 (wrap32 a + b) = wrap32 (a + b) := by
  unfold wrap32; omega

lemma wrap32_idem (n : Int) : wrap32 (wrap32 n) = wrap32 n := by
  unfold wrap32; omega

lemma de32_le32 (n : Int) :
    de32 ((n % 4294967296).toNat % 256) ((n % 4294967296).toNat / 256 % 256)
      ((n % 4294967296).toNat / 65536 % 256)
      ((n % 4294967296).toNat / 16777216 % 256) = wrap32 n := by
  unfold de32 wrap32
  split <;> omega

lemma de16_le16 (n : Int) :
    de16 ((n % 65536).toNat % 256) ((n % 65536).toNat / 256 % 256) = wrap16 n := by
  unfold de16 wrap16
  split <;> omega

lemma le32_wrap32 (n : Int) : le32 (wrap32 n) = le32 n := by
  have h : ((n + 2147483648) % 4294967296 - 2147483648) % 4294967296 =
      n % 4294967296 := by omega
  simp [le32, wrap32, h]

lemma le16_wrap16 (n : Int) : le16 (wrap16 n) = le16 n := by
  have h : ((n + 32768) % 65536 - 32768) % 65536 = n % 65536 := by omega
  simp [le16, wrap16, h]

/-! ### Structure of the session's file -/

lemma write_wav_header_bytes_length (sr bits : Int) :
    (write_wav_header_bytes sr bits).length = wavHeaderSize := by
  simp [write_wav_header_bytes, serializeWavHeader, write_wav_header, le32, le16,
    wavHeaderSize]

set_option maxHeartbeats 1000000 in
lemma parse_write (sr bits : Int) :
    parseWavHeader (write_wav_header_bytes sr bits) =
      { riff_header := [82, 73, 70, 70]
      , wav_size := 0
      , wave_header := [87, 65, 86, 69]
      , fmt_header := [102, 109, 116, 32]
      , fmt_chunk_size := 16
      , audio_format := 1
      , num_channels := 1
      , sample_rate := wrap32 sr
      , byte_rate := wrap32 (sr * 1 * (bits / 8))
      , sample_alignment := wrap16 (1 * (bits / 8))
      , bit_depth := wrap16 bits
      , data_header := [100, 97, 116, 97]
      , data_bytes := 0 } := by
  simp only [write_wav_header_bytes, serializeWavHeader, write_wav_header, le32, le16,
    List.cons_append, List.nil_append]
  simp [parseWavHeader, byteAt, List.getD, de32_le32, de16_le16]
  norm_num [de32, de16, wrap32, wrap16]

lemma update_record_of_write (sr bits : Int) (p : List Nat) (c : Int) :
    update_wav_header_record (write_wav_header_bytes sr bits ++ p) c =
      final_header sr bits c := by
  unfold update_wav_header_record
  rw [List.take_left' (write_wav_header_bytes_length sr bits), parse_write]
  simp [final_header, wavHeaderSize]
  omega

lemma capture_loop_fst (evs : List LoopEvent) : ∀ (file : List Nat) (c : Int),
    (capture_loop evs file c).1 = file ++ writtenBytes evs := by
  induction evs with
  | nil => intro file c; simp [capture_loop, writtenBytes]
  | cons e rest ih =>
    cases e with
    | read_ok block w =>
      intro file c
      by_cases hb : 0 < block.length
      · cases w <;> simp [capture_loop, writtenBytes, hb, ih]
      · simp [capture_loop, writtenBytes, hb, ih]
    | read_fail => intro file c; simp [capture_loop, writtenBytes, ih]

lemma capture_loop_snd (evs : List LoopEvent) : ∀ (file : List Nat) (c : Int),
    wrap32 c = c → (capture_loop evs file c).2 = wrap32 (c + countedLen evs) := by
  induction evs with
  | nil => intro file c hc; simp [capture_loop, countedLen, hc]
  | cons e rest ih =>
    cases e with
    | read_ok block w =>
      intro file c hc
      by_cases hb : 0 < block.length
      · have h1 := ih (if w then file ++ block else file)
          (wrap32 (c + block.length)) (wrap32_idem _)
        simp only [capture_loop, hb, if_pos, countedLen, h1, wrap32_wrap32_add]
        congr 1
        push_cast
        ring
      · simp [capture_loop, countedLen, hb, ih _ _ hc]
    | read_fail => intro file c hc; simp [capture_loop, countedLen, ih _ _ hc]

lemma run_session_eq (sr bits : Int) (evs : List LoopEvent) :
    run_session sr bits evs =
      serializeWavHeader (final_header sr bits (wrap32 (countedLen evs))) ++
        writtenBytes evs := by
  simp only [run_session, update_wav_header, capture_loop_fst,
    capture_loop_snd _ _ _ wrap32_zero, zero_add]
  rw [update_record_of_write, List.drop_left' (write_wav_header_bytes_length sr bits)]

lemma serialize_final_length (sr bits c : Int) :
    (serializeWavHeader (final_header sr bits c)).length = wavHeaderSize := by
  simp [serializeWavHeader, final_header, le32, le16, wavHeaderSize]

lemma read_data_size_final (sr bits c : Int) (p : List Nat) :
    read_data_size (serializeWavHeader (final_header sr bits c) ++ p) = wrap32 c := by
  simp only [serializeWavHeader, final_header, le32, le16, List.cons_append,
    List.nil_append]
  simp [read_data_size, byteAt, List.getD, de32_le32]

lemma read_wav_size_final (sr bits c : Int) (p : List Nat) :
    read_wav_size (serializeWavHeader (final_header sr bits c) ++ p) =
      wrap32 (c + 36) := by
  simp only [serializeWavHeader, final_header, le32, le16, List.cons_append,
    List.nil_append]
  simp [read_wav_size, byteAt, List.getD, de32_le32]

lemma read_byte_rate_final (sr bits c : Int) (p : List Nat) :
    read_byte_rate (serializeWavHeader (final_header sr bits c) ++ p) =
      wrap32 (sr * 1 * (bits / 8)) := by
  simp only [serializeWavHeader, final_header, le32, le16, List.cons_append,
    List.nil_append]
  simp [read_byte_rate, byteAt, List.getD, de32_le32, wrap32_idem]

lemma read_data_size_run (sr bits : Int) (evs : List LoopEvent) :
    read_data_size (run_session sr bits evs) = wrap32 (countedLen evs) := by
  rw [run_session_eq, read_data_size_final, wrap32_idem]

lemma read_wav_size_run (sr bits : Int) (evs : List LoopEvent) :
    read_wav_size (run_session sr bits evs) = wrap32 (countedLen evs + 36) := by
  rw [run_session_eq, read_wav_size_final, wrap32_wrap32_add]

lemma read_byte_rate_run (sr bits : Int) (evs : List LoopEvent) :
    read_byte_rate (run_session sr bits evs) = wrap32 (sr * 1 * (bits / 8)) := by
  rw [run_session_eq, read_byte_rate_final]

lemma run_session_length (sr bits : Int) (evs : List LoopEvent) :
    (run_session sr bits evs).length = wavHeaderSize + (writtenBytes evs).length := by
  rw [run_session_eq]
  simp [serialize_final_length sr bits (wrap32 (countedLen evs))]

lemma run_session_drop (sr bits : Int) (evs : List LoopEvent) :
    (run_session sr bits evs).drop wavHeaderSize = writtenBytes evs := by
  rw [run_session_eq]
  exact List.drop_left' (serialize_final_length sr bits (wrap32 (countedLen evs)))

lemma read_data_size_write (sr bits : Int) :
    read_data_size (write_wav_header_bytes sr bits) = 0 := by
  simp only [write_wav_header_bytes, serializeWavHeader, write_wav_header, le32, le16,
    List.cons_append, List.nil_append]
  norm_num [read_data_size, byteAt, List.getD, de32]

lemma read_wav_size_write (sr bits : Int) :
    read_wav_size (write_wav_header_bytes sr bits) = 0 := by
  simp only [write_wav_header_bytes, serializeWavHeader, write_wav_header, le32, le16,
    List.cons_append, List.nil_append]
  norm_num [read_wav_size, byteAt, List.getD, de32]

lemma read_byte_rate_write (sr bits : Int) :
    read_byte_rate (write_wav_header_bytes sr bits) = wrap32 (sr * 1 * (bits / 8)) := by
  simp only [write_wav_header_bytes, serializeWavHeader, write_wav_header, le32, le16,
    List.cons_append, List.nil_append]
  simp [read_byte_rate, byteAt, List.getD, de32_le32]

lemma writtenBytes_append (a b : List LoopEvent) :
    writtenBytes (a ++ b) = writtenBytes a ++ writtenBytes b := by
  induction a with
  | nil => simp [writtenBytes]
  | cons e rest ih =>
    cases e with
    | read_ok block w => simp [writtenBytes, ih, List.append_assoc]
    | read_fail => simp [writtenBytes, ih]

lemma countedLen_append (a b : List LoopEvent) :
    countedLen (a ++ b) = countedLen a + countedLen b := by
  induction a with
  | nil => simp [countedLen]
  | cons e rest ih =>
    cases e with
    | read_ok block w => simp [countedLen, ih]; ring
    | read_fail => simp [countedLen, ih]

lemma writtenBytes_map_ok (blocks : List (List Nat)) :
    writtenBytes (blocks.map fun b => LoopEvent.read_ok b true) = blocks.flatten := by
  induction blocks with
  | nil => simp [writtenBytes]
  | cons b rest ih =>
    by_cases hb : 0 < b.length
    · simp [writtenBytes, hb, ih]
    · have : b = [] := by
        cases b with
        | nil => rfl
        | cons x xs => simp at hb
      simp [writtenBytes, hb, ih, this]

lemma countedLen_map_ok (blocks : List (List Nat)) :
    countedLen (blocks.map fun b => LoopEvent.read_ok b true) =
      (blocks.map List.length).sum := by
  induction blocks with
  | nil => simp [countedLen]
  | cons b rest ih =>
    by_cases hb : 0 < b.length
    · simp [countedLen, hb, ih]
    · have hb0 : b.length = 0 := by omega
      simp [countedLen, hb, ih, hb0]

lemma count_writes_loop_finalize (evs : List LoopEvent) (w : List Nat) :
    ∀ pos : Nat, 0 < pos →
      count_writes_at_0 (loop_ops evs ++
        [FileOp.fseek_set0, FileOp.fread_header, FileOp.fseek_set0,
         FileOp.fwrite w, FileOp.fclose]) pos = 1 := by
  induction evs with
  | nil =>
    intro pos hp
    simp [loop_ops, count_writes_at_0]
  | cons e rest ih =>
    cases e with
    | read_ok block wr =>
      intro pos hp
      by_cases hb : 0 < block.length
      · have hp' : ¬pos = 0 := by omega
        have := ih (pos + block.length) (by omega)
        simp [loop_ops, hb, count_writes_at_0, hp', this]
      · simp [loop_ops, hb, ih pos hp]
    | read_fail => intro pos hp; simp [loop_ops, ih pos hp]

set_option maxRecDepth 8000 in
lemma take4_run (sr bits : Int) (evs : List LoopEvent) :
    (run_session sr bits evs).take 4 = (write_wav_header_bytes sr bits).take 4 := by
  rw [run_session_eq]
  simp only [serializeWavHeader, final_header, write_wav_header_bytes,
    write_wav_header, le32, le16, List.cons_append, List.nil_append]
  simp

set_option maxRecDepth 8000 in
lemma mid32_run (sr bits : Int) (evs : List LoopEvent) :
    ((run_session sr bits evs).drop 8).take 32 =
      ((write_wav_header_bytes sr bits).drop 8).take 32 := by
  rw [run_session_eq]
  simp only [serializeWavHeader, final_header, write_wav_header_bytes,
    write_wav_header]
  simp only [le32_wrap32, le16_wrap16]
  simp only [le32, le16, List.cons_append, List.nil_append]
  simp

/-! ### The claims -/

/-- C1: the claimed guarantee — the capture loop's header finalize and
sink close happen-before a successful `StopCapture` return — is NOT
provided by the code: `StopRecording` merely clears the flag and sleeps
a fixed `stopRecording_delay_ms = 200` ms with no completion signal,
while the loop, if it has just entered its `i2s_read` (timeout
`i2s_read_timeout_ms = 100` ms) when the flag is cleared, re-checks the
flag only after the read and the following unchecked `fwrite`; with an
`fwrite` to a slow card taking 150 ms and 10 ms of finalize I/O the
finalize completes 260 ms after the flag clears, after `StopRecording`
(which returns `true` regardless) has already returned. -/
theorem C1_stop_fixed_delay_race :
    stopRecording_delay_ms < finalize_complete_ms i2s_read_timeout_ms 150 10 ∧
    (StopRecording (RecorderState.mk "/sdcard/rec.wav" true 0)).1 = true := by
  exact ⟨by decide, rfl⟩

/-- C2 (counterexample): for a destination that cannot be opened
(`fopen_ok = false` in the background task), `StartRecording` from the
idle state nevertheless returns `true` and sets `m_is_recording` — it
does not consult the path at all; only the background task later
detects the failure and clears the flag.  This refutes "returns an
error synchronously, does not transition the state to Recording". -/
theorem C2_sink_open_counterexample :
    (StartRecording (RecorderState.mk "" false 0)
      "/sdcard/rec.wav" true).1 = true ∧
    (StartRecording (RecorderState.mk "" false 0)
      "/sdcard/rec.wav" true).2.m_is_recording = true ∧
    (recording_task_open_phase
      (StartRecording (RecorderState.mk "" false 0)
        "/sdcard/rec.wav" true).2 false).1.m_is_recording = false := by
  exact ⟨rfl, rfl, rfl⟩

/-- C2 (amended): when the state is not `Recording` and the task can be
created, `StartRecording` returns success and transitions to
`Recording` without consulting the destination; a sink-open failure is
detected asynchronously by the background task, which clears the flag
and exits without recording; the only synchronous failure (besides
already-recording) is task creation, which resets the flag. -/
theorem C2_sink_open_amended (s : RecorderState) (p : String)
    (h : s.m_is_recording = false) :
    (StartRecording s p true).1 = true ∧
    (StartRecording s p true).2.m_is_recording = true ∧
    (recording_task_open_phase (StartRecording s p true).2 false).1.m_is_recording = false ∧
    (recording_task_open_phase (StartRecording s p true).2 false).2 = false ∧
    (StartRecording s p false).1 = false ∧
    (StartRecording s p false).2.m_is_recording = false := by
  simp [StartRecording, recording_task_open_phase, h]

/-- C2 witness: `C2_sink_open_amended` at a concrete idle state. -/
theorem C2_sink_open_witness :
    (StartRecording (RecorderState.mk "" false 0)
      "/sdcard/rec.wav" true).1 = true ∧
    (StartRecording (RecorderState.mk "" false 0)
      "/sdcard/rec.wav" true).2.m_is_recording = true ∧
    (recording_task_open_phase
      (StartRecording (RecorderState.mk "" false 0)
        "/sdcard/rec.wav" true).2 false).1.m_is_recording = false ∧
    (recording_task_open_phase
      (StartRecording (RecorderState.mk "" false 0)
        "/sdcard/rec.wav" true).2 false).2 = false ∧
    (StartRecording (RecorderState.mk "" false 0)
      "/sdcard/rec.wav" false).1 = false ∧
    (StartRecording (RecorderState.mk "" false 0)
      "/sdcard/rec.wav" false).2.m_is_recording = false :=
  C2_sink_open_amended (RecorderState.mk "" false 0) "/sdcard/rec.wav" rfl

/-- C7: for every configuration, a session with zero blocks produced
(stop before any read succeeded) yields a file of exactly
`sizeof(WavHeader) = 44` bytes whose `data_bytes` field is 0 and whose
`wav_size` (file size minus 8) field is `44 - 8 = 36`. -/
theorem C7_stop_before_any_block (sr bits : Int) :
    (run_session sr bits []).length = wavHeaderSize ∧
    read_data_size (run_session sr bits []) = 0 ∧
    read_wav_size (run_session sr bits []) = (wavHeaderSize : Int) - 8 := by
  refine ⟨?_, ?_, ?_⟩
  · rw [run_session_length]
    simp [writtenBytes]
  · rw [read_data_size_run]
    norm_num [countedLen, wrap32]
  · rw [read_wav_size_run]
    norm_num [countedLen, wrap32, wavHeaderSize]

/-- C8: `StartRecording` while already recording and `StopRecording`
while not recording are rejected synchronously (`false`) with no side
effects: the state — path, flag, counter — is returned untouched, and
the rejected paths perform no file operations. -/
theorem C8_invalid_state_no_side_effects (s t : RecorderState) (p : String)
    (task_ok : Bool)
    (hs : s.m_is_recording = true) (ht : t.m_is_recording = false) :
    StartRecording s p task_ok = (false, s) ∧ StopRecording t = (false, t) := by
  simp [StartRecording, StopRecording, hs, ht]

/-- C8 witness: `C8_invalid_state_no_side_effects` on concrete states. -/
theorem C8_invalid_state_witness :
    StartRecording (RecorderState.mk "/sdcard/a.wav" true 5) "/sdcard/b.wav" true =
      (false, RecorderState.mk "/sdcard/a.wav" true 5) ∧
    StopRecording (RecorderState.mk "" false 0) =
      (false, RecorderState.mk "" false 0) :=
  C8_invalid_state_no_side_effects
    (RecorderState.mk "/sdcard/a.wav" true 5)
    (RecorderState.mk "" false 0)
    "/sdcard/b.wav" true rfl rfl

lemma count_writes_session (path : String) (sr bits : Int) (events : List LoopEvent) :
    count_writes_at_0 (session_ops path true sr bits events) 0 = 2 := by
  simp only [session_ops, if_true, List.cons_append, List.nil_append]
  simp only [count_writes_at_0, Nat.zero_add, if_pos rfl]
  rw [write_wav_header_bytes_length]
  rw [count_writes_loop_finalize _ _ wavHeaderSize (by norm_num [wavHeaderSize])]
  norm_num

lemma countedLen_one_replicate (n : Nat) (hn : 0 < n) :
    countedLen [LoopEvent.read_ok (List.replicate n 0) true] = n := by
  simp [countedLen, hn]

/-- C3 (counterexample): a failed sink write does NOT terminate the
session and is never surfaced.  In a session where the `fwrite` of the
first block `[1,2,3,4]` fails and a later read of `[5,6]` succeeds, the
loop keeps going — the later block is still appended (the payload on
disk is `[5,6]`) — and the finalized `data_bytes` is 6 (the counter was
incremented for the failed write too), while `StopRecording` still
reports success; no error is surfaced anywhere. -/
theorem C3_sink_write_counterexample :
    (run_session 16000 16 [LoopEvent.read_ok [1, 2, 3, 4] false,
        LoopEvent.read_ok [5, 6] true]).drop wavHeaderSize = [5, 6] ∧
    read_data_size (run_session 16000 16 [LoopEvent.read_ok [1, 2, 3, 4] false,
        LoopEvent.read_ok [5, 6] true]) = 6 ∧
    (StopRecording (RecorderState.mk "/sdcard/rec.wav" true 6)).1 = true := by
  refine ⟨?_, ?_, rfl⟩
  · rw [run_session_drop]
    simp [writtenBytes]
  · rw [read_data_size_run]
    norm_num [countedLen, wrap32]

/-- C3 (amended): sink write failures are ignored — the loop does not
check `fwrite`'s result, keeps looping (the session ends only when the
stop flag is cleared), still counts the failed block's bytes, and no
error is surfaced; the sink is nevertheless always closed and the
header finalized at the end of the session. -/
theorem C3_sink_write_ignored (sr bits : Int) (path : String) (evs : List LoopEvent) :
    FileOp.fclose ∈ session_ops path true sr bits evs ∧
    (run_session sr bits evs).drop wavHeaderSize = writtenBytes evs ∧
    read_data_size (run_session sr bits evs) = wrap32 (countedLen evs) := by
  refine ⟨?_, run_session_drop sr bits evs, read_data_size_run sr bits evs⟩
  simp [session_ops]

/-- C4: in every session the header record is written exactly twice at
offset 0 — once right after the open and once at finalize after a seek
back to 0; the placeholder write has `wav_size = 0` and
`data_bytes = 0`; and all bytes of the 44-byte record other than
`wav_size` (offsets 4-7) and `data_bytes` (offsets 40-43) — i.e. bytes
0-3 and 8-39 — are identical between the two writes. -/
theorem C4_header_written_twice (sr bits : Int) (path : String)
    (events : List LoopEvent) :
    count_writes_at_0 (session_ops path true sr bits events) 0 = 2 ∧
    read_wav_size (write_wav_header_bytes sr bits) = 0 ∧
    read_data_size (write_wav_header_bytes sr bits) = 0 ∧
    (run_session sr bits events).take 4 = (write_wav_header_bytes sr bits).take 4 ∧
    ((run_session sr bits events).drop 8).take 32 =
      ((write_wav_header_bytes sr bits).drop 8).take 32 :=
  ⟨count_writes_session path sr bits events, read_wav_size_write sr bits,
    read_data_size_write sr bits, take4_run sr bits events, mid32_run sr bits events⟩

/-- C5 (counterexample): `data_size` does not always equal the sum of
the delivered block sizes — the counter and field are 32-bit signed, so
a single successfully delivered (and written) block of 2^31 bytes
finalizes `data_bytes` to -2^31, not 2^31. -/
theorem C5_data_size_counterexample :
    read_data_size (run_session 16000 16
      [LoopEvent.read_ok (List.replicate 2147483648 0) true]) ≠ 2147483648 := by
  rw [read_data_size_run, countedLen_one_replicate 2147483648 (by norm_num)]
  norm_num [wrap32]

/-- C5 (amended): for blocks all successfully read and written, the
payload after the header is their concatenation in read order, and —
provided the total stays below 2^31 (the fields are 32-bit signed) —
the finalized `data_bytes` equals the sum of the block sizes. -/
theorem C5_payload_and_size (sr bits : Int) (blocks : List (List Nat)) :
    (run_session sr bits (blocks.map fun b => LoopEvent.read_ok b true)).drop
        wavHeaderSize = blocks.flatten ∧
    (((blocks.map List.length).sum : Int) < 2147483648 →
      read_data_size (run_session sr bits (blocks.map fun b => LoopEvent.read_ok b true)) =
        ((blocks.map List.length).sum : Int)) := by
  constructor
  · rw [run_session_drop, writtenBytes_map_ok]
  · intro h
    rw [read_data_size_run, countedLen_map_ok]
    exact wrap32_eq_self (by omega) h

/-- C5 witness: `C5_payload_and_size` on blocks `[1,2]` and `[3]`. -/
theorem C5_payload_witness :
    (run_session 16000 16 ([[1, 2], [3]].map fun b => LoopEvent.read_ok b true)).drop
        wavHeaderSize = [[1, 2], [3]].flatten ∧
    read_data_size (run_session 16000 16
        ([[1, 2], [3]].map fun b => LoopEvent.read_ok b true)) =
      (([[1, 2], [3]].map List.length).sum : Int) :=
  ⟨(C5_payload_and_size 16000 16 [[1, 2], [3]]).1,
    (C5_payload_and_size 16000 16 [[1, 2], [3]]).2 (by decide)⟩

/-- C6: a timeout/transient read error never terminates the capture
loop: with a `read_fail` in the middle of a session, the events after
it are still processed — a subsequent successful block `b` is still
appended to the sink and its size added to the byte counter. -/
theorem C6_transient_read_retry (sr bits : Int) (pre post : List LoopEvent)
    (b : List Nat) (hb : 0 < b.length) :
    (run_session sr bits
        (pre ++ LoopEvent.read_fail :: LoopEvent.read_ok b true :: post)).drop
        wavHeaderSize = writtenBytes pre ++ b ++ writtenBytes post ∧
    countedLen (pre ++ LoopEvent.read_fail :: LoopEvent.read_ok b true :: post) =
      countedLen pre + b.length + countedLen post := by
  constructor
  · rw [run_session_drop, writtenBytes_append]
    simp [writtenBytes, hb]
  · rw [countedLen_append]
    simp [countedLen, hb]
    omega

/-- C6 witness: `C6_transient_read_retry` with one failed read followed
by the successful block `[7, 7]`. -/
theorem C6_transient_witness :
    (run_session 16000 16
        ([] ++ LoopEvent.read_fail :: LoopEvent.read_ok [7, 7] true :: [])).drop
        wavHeaderSize = writtenBytes [] ++ [7, 7] ++ writtenBytes [] ∧
    countedLen ([] ++ LoopEvent.read_fail :: LoopEvent.read_ok [7, 7] true :: []) =
      countedLen [] + ([7, 7] : List Nat).length + countedLen [] :=
  C6_transient_read_retry 16000 16 [] [] [7, 7] (by decide)

/-- C9: every written header's `byte_rate` field equals
`sample_rate * num_channels * (bit_depth / 8)` (channels fixed at 1),
both in the placeholder and in the finalized header, whenever the
product is in 32-bit range; and the spec's scenario — 16000 Hz, 16-bit,
mono, blocks of 4000 and 2000 bytes — yields file size `44 + 6000`,
`data_bytes = 6000`, `byte_rate = 32000`. -/
theorem C9_byte_rate_formula (sr bits : Int) (evs : List LoopEvent)
    (h0 : 0 ≤ sr * 1 * (bits / 8)) (h1 : sr * 1 * (bits / 8) < 2147483648) :
    read_byte_rate (write_wav_header_bytes sr bits) = sr * 1 * (bits / 8) ∧
    read_byte_rate (run_session sr bits evs) = sr * 1 * (bits / 8) ∧
    (run_session 16000 16 [LoopEvent.read_ok (List.replicate 4000 7) true,
        LoopEvent.read_ok (List.replicate 2000 9) true]).length =
      wavHeaderSize + 6000 ∧
    read_data_size (run_session 16000 16 [LoopEvent.read_ok (List.replicate 4000 7) true,
        LoopEvent.read_ok (List.replicate 2000 9) true]) = 6000 ∧
    read_byte_rate (run_session 16000 16 [LoopEvent.read_ok (List.replicate 4000 7) true,
        LoopEvent.read_ok (List.replicate 2000 9) true]) = 32000 := by
  refine ⟨?_, ?_, ?_, ?_, ?_⟩
  · rw [read_byte_rate_write]
    exact wrap32_eq_self (by omega) h1
  · rw [read_byte_rate_run]
    exact wrap32_eq_self (by omega) h1
  · rw [run_session_length]
    simp only [writtenBytes, List.length_replicate, List.length_append]
    norm_num [wavHeaderSize]
  · rw [read_data_size_run]
    simp only [countedLen, List.length_replicate]
    norm_num [wrap32]
  · rw [read_byte_rate_run]
    norm_num [wrap32]

/-- C9 witness: `C9_byte_rate_formula` at the 16000 Hz / 16-bit
configuration. -/
theorem C9_byte_rate_witness :
    read_byte_rate (write_wav_header_bytes 16000 16) = 16000 * 1 * (16 / 8) ∧
    read_byte_rate (run_session 16000 16 []) = 16000 * 1 * (16 / 8) ∧
    (run_session 16000 16 [LoopEvent.read_ok (List.replicate 4000 7) true,
        LoopEvent.read_ok (List.replicate 2000 9) true]).length =
      wavHeaderSize + 6000 ∧
    read_data_size (run_session 16000 16 [LoopEvent.read_ok (List.replicate 4000 7) true,
        LoopEvent.read_ok (List.replicate 2000 9) true]) = 6000 ∧
    read_byte_rate (run_session 16000 16 [LoopEvent.read_ok (List.replicate 4000 7) true,
        LoopEvent.read_ok (List.replicate 2000 9) true]) = 32000 :=
  C9_byte_rate_formula 16000 16 [] (by norm_num) (by norm_num)

/-- C10 (counterexample): the sizes are NOT exact for every payload
below 2^31 bytes: for a session totalling 2^31 - 36 payload bytes the
true file size minus 8 is 2^31, which overflows the 32-bit signed
`wav_size` field to -2^31 — even though the payload itself is below
2^31 and `data_bytes` is still exact. -/
theorem C10_wav_size_counterexample :
    read_wav_size (run_session 16000 16
      [LoopEvent.read_ok (List.replicate 2147483612 0) true]) ≠ 2147483612 + 36 := by
  rw [read_wav_size_run, countedLen_one_replicate 2147483612 (by norm_num)]
  norm_num [wrap32]

/-- C10 (amended): the counter and the two header size fields are
32-bit signed; for every session whose counted payload stays below
`2^31 - 36` bytes both finalized sizes are exact (`data_bytes` equals
the payload total and `wav_size` equals total + 36), while at
`2^31 - 36` bytes `wav_size` already overflows and at `2^31`
`data_bytes` does too — recording length is bounded by the field
width, not only by storage. -/
theorem C10_sizes_exact_below (sr bits : Int) (evs : List LoopEvent)
    (h : (countedLen evs : Int) < 2147483612) :
    read_data_size (run_session sr bits evs) = countedLen evs ∧
    read_wav_size (run_session sr bits evs) = countedLen evs + 36 := by
  rw [read_data_size_run, read_wav_size_run]
  exact ⟨wrap32_eq_self (by omega) (by omega), wrap32_eq_self (by omega) (by omega)⟩

/-- C10 witness: `C10_sizes_exact_below` on a one-byte session. -/
theorem C10_sizes_witness :
    read_data_size (run_session 16000 16 [LoopEvent.read_ok [9] true]) =
      countedLen [LoopEvent.read_ok [9] true] ∧
    read_wav_size (run_session 16000 16 [LoopEvent.read_ok [9] true]) =
      countedLen [LoopEvent.read_ok [9] true] + 36 :=
  C10_sizes_exact_below 16000 16 [LoopEvent.read_ok [9] true] (by decide)

end AudioRecorder
